import Mathlib

/-!
Verification development for the career-bot repository: a shallow embedding
of the conversational agent (src/agent/me.py), the LLM client construction
(src/agent/llm_client.py), the tool registry (src/tools/__init__.py,
src/tools/handlers.py) and the notification push (src/tools/notifications.py),
together with theorems settling the specification's claims.

External collaborators (the hosted model, the Python json module, the
requests transport, the environment) are parameters of the embedded
functions: the embedding quantifies over their behaviour.
-/

namespace CareerBot

/-- Python exceptions that the embedded code can raise, as a value type.
`runtimeError` embeds `RuntimeError` (the ToolLoopExceededError of the spec),
`valueError` embeds `ValueError` (the UnsupportedProviderError of the spec),
`jsonDecodeError` embeds `json.JSONDecodeError` raised by `json.loads`,
`typeError` embeds the `TypeError` raised by a keyword-argument call that
does not match the callee's signature. -/
inductive PyError where
  | runtimeError (msg : String)
  | valueError (msg : String)
  | jsonDecodeError (msg : String)
  | typeError (msg : String)
  deriving Repr, DecidableEq

/-- A tool-call function payload: `call.function` in the OpenAI wire format,
with `name` the tool name and `arguments` the provider-serialized argument
text (a JSON document, decoded by `json.loads` in `_handle_tool_calls`). -/
structure ToolFunction where
  name : String
  arguments : String
  deriving Repr, DecidableEq

/-- A tool-call request: `call.id` and `call.function` as read by
`_handle_tool_calls` in src/agent/me.py. -/
structure ToolCall where
  id : String
  function : ToolFunction
  deriving Repr, DecidableEq

/-- One message of the conversation buffer, in the unified OpenAI dict shape
used throughout src/agent/me.py: a role, an optional text content (assistant
content may be None), the tool calls carried by an assistant message
(empty list embeds the absent key), and the tool_call_id key of a tool-result
message (none embeds the absent key). -/
structure Msg where
  role : String
  content : Option String
  tool_calls : List ToolCall := []
  tool_call_id : Option String := none
  deriving Repr, DecidableEq

/-- The message part of one completion choice: `choice.message`, with
`content` (possibly None) and the list of requested tool calls. -/
structure AssistantMsg where
  content : Option String
  tool_calls : List ToolCall := []
  deriving Repr, DecidableEq

/-- One completion choice, `response.choices[0]`: the provider's finish
reason and the assistant message. -/
structure Choice where
  finish_reason : String
  message : AssistantMsg
  deriving Repr, DecidableEq

/-- Decoded keyword arguments for a tool call: the result of `json.loads`
on the argument text, as an ordered association list of string keys to
string values (the two registered tools take only string parameters). -/
abbrev Kwargs := List (String × String)

/-- A registered tool as the orchestrator sees it: decoded keyword arguments
to either a structured result mapping or a raised exception (Python kwarg
binding raises TypeError on a bad assignment). -/
abbrev ToolFn := Kwargs → Except PyError (List (String × String))

/-- The external `json.loads` of the Python standard library, as a parameter:
argument text to decoded keyword arguments or a raised JSONDecodeError. -/
abbrev LoadsFn := String → Except PyError Kwargs

/-- A tool registry: `TOOL_REGISTRY.get(name)` — a name-keyed partial map
to callables. -/
abbrev Registry := String → Option ToolFn

/-- The external hosted model, as a parameter: the full message buffer to
the completion choice the provider returns (`response.choices[0]`). -/
abbrev ModelFn := List Msg → Choice

/-- First value bound to a key in an association list; embeds a Python dict
lookup on the decoded JSON object. -/
def kwGet (kw : Kwargs) (k : String) : Option String :=
  (kw.find? (fun p => p.1 = k)).map (fun p => p.2)

/-- Minimal JSON string escaping as `json.dumps` performs it on the string
keys and values that occur in tool outputs. -/
def escapeChar (c : Char) : String :=
  if c = '"' then "\\\""
  else if c = '\\' then "\\\\"
  else if c = '\n' then "\\n"
  else if c = '\t' then "\\t"
  else if c = '\r' then "\\r"
  else String.singleton c

/-- `json.dumps` on a flat object of string keys and string values, with the
default separators: keys and values quoted and escaped, pairs joined by
a comma and a space, key and value joined by a colon and a space. -/
def json_dumps (obj : List (String × String)) : String :=
  "\x7b" ++ String.intercalate ", "
    (obj.map (fun p =>
      "\"" ++ String.join (p.1.toList.map escapeChar) ++ "\": \"" ++
      String.join (p.2.toList.map escapeChar) ++ "\"")) ++ "\x7d"

/-- `Me._handle_tool_calls` (src/agent/me.py lines 33-53): iterate the
tool-call requests in order; an unregistered name is skipped with no result
and no error; a registered name has its argument text decoded by
`json.loads` and the tool invoked with the decoded keyword arguments, a
raised exception propagating; on success one tool-result message is
appended carrying the call's id and the output re-encoded by `json.dumps`. -/
def handle_tool_calls (loads : LoadsFn) (reg : Registry) :
    List ToolCall → Except PyError (List Msg)
  | [] => Except.ok []
  | call :: rest =>
    match reg call.function.name with
    | none => handle_tool_calls loads reg rest
    | some tool =>
      match loads call.function.arguments with
      | Except.error e => Except.error e
      | Except.ok args =>
        match tool args with
        | Except.error e => Except.error e
        | Except.ok output =>
          match handle_tool_calls loads reg rest with
          | Except.error e => Except.error e
          | Except.ok results =>
            Except.ok ({ role := "tool", content := some (json_dumps output),
                         tool_call_id := some call.id } :: results)

/-- The assistant message appended to the buffer in the tool-calls branch of
`Me.chat`: role assistant, the choice's content (possibly None) and its raw
tool-call list. -/
def assistantToMsg (am : AssistantMsg) : Msg :=
  { role := "assistant", content := am.content, tool_calls := am.tool_calls }

/-- The two list objects live during one `Me.chat` invocation: the caller's
`history` argument and the orchestrator's own `messages` buffer. Seeding
with `+` allocates a fresh buffer; `append`/`extend` mutate only the
buffer, which the embedding mirrors by updating only `messages`. -/
structure BufState where
  history : List Msg
  messages : List Msg
  deriving Repr, DecidableEq

/-- One executed tool-call round, as recorded in the instrumented trace:
the assistant message of the round and the tool-result messages appended
for it. -/
structure Round where
  assistant : AssistantMsg
  results : List Msg
  deriving Repr, DecidableEq

instance {ε α : Type} [DecidableEq ε] [DecidableEq α] : DecidableEq (Except ε α) := fun a b =>
  match a, b with
  | Except.error e, Except.error f =>
    if h : e = f then Decidable.isTrue (by rw [h])
    else Decidable.isFalse (by intro hc; cases hc; exact h rfl)
  | Except.error _, Except.ok _ => Decidable.isFalse (by intro hc; cases hc)
  | Except.ok _, Except.error _ => Decidable.isFalse (by intro hc; cases hc)
  | Except.ok x, Except.ok y =>
    if h : x = y then Decidable.isTrue (by rw [h])
    else Decidable.isFalse (by intro hc; cases hc; exact h rfl)

/-- What one `Me.chat` invocation produces, instrumented for the proofs:
the returned text or raised exception, the number of completion calls
performed, the trace of executed tool-call rounds, and the final state of
the two lists. -/
structure ChatOutcome where
  result : Except PyError (Option String)
  calls : Nat
  rounds : List Round
  state : BufState
  deriving Repr, DecidableEq

/-- The `for _ in range(5)` loop of `Me.chat` (src/agent/me.py lines 66-89),
with the remaining iteration count explicit. Each iteration performs one
completion call on the current buffer; a non-"tool_calls" finish returns
the choice's content as-is; otherwise the assistant message is appended,
the tool calls are handled (a raised exception propagating with the round
counted), the results are extended onto the buffer and the loop continues.
Exhausting the count raises RuntimeError("Tool loop exceeded max
iterations"). -/
def chatAux (model : ModelFn) (loads : LoadsFn) (reg : Registry) :
    Nat → BufState → ChatOutcome
  | 0, s =>
    { result := Except.error (PyError.runtimeError "Tool loop exceeded max iterations"),
      calls := 0, rounds := [], state := s }
  | fuel + 1, s =>
    let choice := model s.messages
    if choice.finish_reason = "tool_calls" then
      let am := choice.message
      let s1 : BufState := { s with messages := s.messages ++ [assistantToMsg am] }
      match handle_tool_calls loads reg am.tool_calls with
      | Except.error e => { result := Except.error e, calls := 1, rounds := [], state := s1 }
      | Except.ok results =>
        let s2 : BufState := { s1 with messages := s1.messages ++ results }
        let o := chatAux model loads reg fuel s2
        { o with calls := o.calls + 1, rounds := ⟨am, results⟩ :: o.rounds }
    else
      { result := Except.ok choice.message.content, calls := 1, rounds := [], state := s }

/-- The seed of the conversation buffer in `Me.chat`:
`[system message] + history + [user message]`. -/
def seedMessages (system_prompt : String) (history : List Msg) (message : String) : List Msg :=
  ({ role := "system", content := some system_prompt } : Msg) ::
    history ++ [({ role := "user", content := some message } : Msg)]

/-- `Me.chat` (src/agent/me.py lines 55-89): seed the buffer as a fresh list
`[system] + history + [user]` and run the bounded tool loop for at most 5
rounds. -/
def chat (model : ModelFn) (loads : LoadsFn) (reg : Registry)
    (system_prompt : String) (history : List Msg) (message : String) : ChatOutcome :=
  chatAux model loads reg 5
    { history := history, messages := seedMessages system_prompt history message }

/-- The Pushover destination configuration read from the environment in
src/config/settings.py: `PUSHOVER_TOKEN` and `PUSHOVER_USER`, each possibly
unset (none). -/
structure PushConfig where
  token : Option String
  user : Option String
  deriving Repr, DecidableEq

/-- The data of the one outbound HTTP POST of src/tools/notifications.py:
the URL and the form fields token, user, message. -/
structure PostData where
  url : String
  token : String
  user : String
  message : String
  deriving Repr, DecidableEq

/-- The transport failure `requests.RequestException`, the one exception
class `requests.post` raises and the one `push` catches. -/
structure RequestException where
  msg : String
  deriving Repr, DecidableEq

/-- The external `requests.post` transport, as a parameter: the posted data
to either success or a raised RequestException. -/
abbrev TransportFn := PostData → Except RequestException Unit

/-- Python truthiness of an optional string: `not x` holds when the
variable is unset or the empty string. -/
def strFalsy : Option String → Bool
  | none => true
  | some s => s.isEmpty

/-- `push` (src/tools/notifications.py lines 4-19): if the token or the
user is falsy, return with no network attempt; otherwise POST the form to
the Pushover endpoint, swallowing any raised RequestException. Returns the
(never-raising) outcome paired with the list of attempted POSTs. -/
def push (cfg : PushConfig) (transport : TransportFn) (message : String) :
    Except PyError Unit × List PostData :=
  if strFalsy cfg.token || strFalsy cfg.user then (Except.ok (), [])
  else
    let pd : PostData :=
      { url := "https://api.pushover.net/1/messages.json",
        token := cfg.token.getD "", user := cfg.user.getD "", message := message }
    match transport pd with
    | Except.ok _ => (Except.ok (), [pd])
    | Except.error _ => (Except.ok (), [pd])

/-- `record_user_details` (src/tools/handlers.py lines 4-11): push a
notification with the formatted user line and return the mapping
recorded → ok. The push outcome is propagated only if it raised, which it
never does. Returns the result paired with the attempted POSTs. -/
def record_user_details (cfg : PushConfig) (transport : TransportFn)
    (email : String) (name : String) (notes : String) :
    Except PyError (List (String × String)) × List PostData :=
  let r := push cfg transport ("User: " ++ name ++ " | Email: " ++ email ++ " | Notes: " ++ notes)
  match r.1 with
  | Except.error e => (Except.error e, r.2)
  | Except.ok _ => (Except.ok [("recorded", "ok")], r.2)

/-- `record_unknown_question` (src/tools/handlers.py lines 13-15): push a
notification recording the question and return the mapping recorded → ok. -/
def record_unknown_question (cfg : PushConfig) (transport : TransportFn)
    (question : String) :
    Except PyError (List (String × String)) × List PostData :=
  let r := push cfg transport ("Recording " ++ question)
  match r.1 with
  | Except.error e => (Except.error e, r.2)
  | Except.ok _ => (Except.ok [("recorded", "ok")], r.2)

/-- Python keyword-argument call semantics for
`record_user_details(email, name="Name not provided", notes="not provided")`:
an unexpected keyword raises TypeError, a missing `email` raises TypeError,
otherwise the defaults fill the absent keywords and the body runs. The
orchestrator does not observe the POST attempts, so they are dropped here. -/
def call_record_user_details (cfg : PushConfig) (transport : TransportFn)
    (kw : Kwargs) : Except PyError (List (String × String)) :=
  if kw.all (fun p => p.1 == "email" || p.1 == "name" || p.1 == "notes") then
    match kwGet kw "email" with
    | none => Except.error (PyError.typeError
        "record_user_details missing required argument: email")
    | some email =>
      (record_user_details cfg transport email
        ((kwGet kw "name").getD "Name not provided")
        ((kwGet kw "notes").getD "not provided")).1
  else Except.error (PyError.typeError
    "record_user_details got an unexpected keyword argument")

/-- Python keyword-argument call semantics for
`record_unknown_question(question)`: an unexpected keyword raises
TypeError, a missing `question` raises TypeError. -/
def call_record_unknown_question (cfg : PushConfig) (transport : TransportFn)
    (kw : Kwargs) : Except PyError (List (String × String)) :=
  if kw.all (fun p => p.1 == "question") then
    match kwGet kw "question" with
    | none => Except.error (PyError.typeError
        "record_unknown_question missing required argument: question")
    | some question => (record_unknown_question cfg transport question).1
  else Except.error (PyError.typeError
    "record_unknown_question got an unexpected keyword argument")

/-- `TOOL_REGISTRY` (src/tools/__init__.py lines 6-9): the fixed mapping
from the two tool names to their callables. -/
def TOOL_REGISTRY (cfg : PushConfig) (transport : TransportFn) : Registry :=
  fun name =>
    if name = "record_user_details" then some (call_record_user_details cfg transport)
    else if name = "record_unknown_question" then some (call_record_unknown_question cfg transport)
    else none

/-- The environment, as a parameter: `os.getenv`. -/
abbrev EnvFn := String → Option String

/-- One provider bundle of `LLM_CONFIGS` in src/config/settings.py:
credential, base endpoint URL and model identifier. -/
structure ProviderConfig where
  api_key : Option String
  base_url : String
  model : String
  deriving Repr, DecidableEq

/-- `LLM_CONFIGS` (src/config/settings.py): the two configured providers,
openai and gemini, each with its documented defaults for base URL and
model identifier. -/
def LLM_CONFIGS (env : EnvFn) : List (String × ProviderConfig) :=
  [("openai",
    { api_key := env "OPENAI_API_KEY",
      base_url := (env "OPENAI_BASE_URL").getD "https://api.openai.com/v1",
      model := (env "OPENAI_MODEL").getD "gpt-4o-mini" }),
   ("gemini",
    { api_key := env "GEMINI_API_KEY",
      base_url := (env "GEMINI_BASE_URL").getD
        "https://generativelanguage.googleapis.com/v1beta/openai/",
      model := (env "GEMINI_MODEL").getD "gemini-2.5-flash" })]

/-- The constructed client value of `LLMClient.__init__`: the provider
name, the resolved model identifier, and the credential and base URL
stored into the wrapped OpenAI SDK client object. The constructor only
stores these fields; it performs no network call. -/
structure LLMClient where
  provider : String
  model : String
  api_key : Option String
  base_url : String
  deriving Repr, DecidableEq

/-- Membership test of a provider name in `LLM_CONFIGS`
(`provider not in LLM_CONFIGS`). -/
def configLookup (env : EnvFn) (provider : String) : Option ProviderConfig :=
  ((LLM_CONFIGS env).find? (fun p => p.1 = provider)).map (fun p => p.2)

/-- `LLMClient.__init__` (src/agent/llm_client.py lines 35-49): a provider
name absent from LLM_CONFIGS raises
ValueError(f"Unsupported provider: ... Available providers: ..."); a
configured name resolves its bundle and constructs the client value with
no network activity. -/
def LLMClient_init (env : EnvFn) (provider : String) : Except PyError LLMClient :=
  match configLookup env provider with
  | none => Except.error (PyError.valueError
      ("Unsupported provider: " ++ provider ++ ". Available providers: " ++
       String.intercalate ", " ((LLM_CONFIGS env).map (fun p => p.1))))
  | some config => Except.ok
      { provider := provider, model := config.model,
        api_key := config.api_key, base_url := config.base_url }

/-- An unconfigured Pushover destination: both environment variables unset. -/
def cfg0 : PushConfig := { token := none, user := none }

/-- A configured Pushover destination, for concrete instantiations. -/
def cfg1 : PushConfig := { token := some "tkn", user := some "usr" }

/-- A transport on which every POST succeeds. -/
def transportOk : TransportFn := fun _ => Except.ok ()

/-- A transport on which every POST raises RequestException (an unreachable
host). -/
def transportFail : TransportFn := fun _ => Except.error { msg := "connection error" }

/-- The concrete tool registry with an unconfigured destination and a
succeeding transport. -/
def REG0 : Registry := TOOL_REGISTRY cfg0 transportOk

/-- A finite concrete instance of the external `json.loads` parameter,
agreeing with the Python json module on the few argument texts used in
concrete instantiations: the empty object and two flat one-field objects
decode to the corresponding keyword arguments, and a non-JSON text raises
JSONDecodeError. -/
def loadsModel : LoadsFn := fun s =>
  if s = "\x7b\x7d" then Except.ok []
  else if s = "\x7b\"question\": \"Policy?\"\x7d" then Except.ok [("question", "Policy?")]
  else if s = "\x7b\"email\": \"a@b.example\"\x7d" then Except.ok [("email", "a@b.example")]
  else Except.error (PyError.jsonDecodeError "Expecting value: line 1 column 1")

/-- `push` returns normally on every input: the destination check returns
early, and a raised RequestException is caught; no branch raises. -/
theorem push_result_ok (cfg : PushConfig) (transport : TransportFn) (message : String) :
    (push cfg transport message).1 = Except.ok () := by
  unfold push
  split
  · rfl
  · dsimp only
    split <;> rfl

/-- C7: for every message, `push` with no destination configured (missing
token or missing user) returns without raising and with no network
attempt; and on every transport, including a failing one, the result is a
normal return, never a raised exception. -/
theorem notification_fire_and_forget (cfg : PushConfig) (transport : TransportFn)
    (message : String) :
    (cfg.token = none ∨ cfg.user = none →
      push cfg transport message = (Except.ok (), [])) ∧
    (push cfg transport message).1 = Except.ok () := by
  constructor
  · rintro (h | h) <;> simp [push, h, strFalsy]
  · exact push_result_ok cfg transport message

/-- C7 witness: with no token configured and an unreachable host, the push
returns normally and attempts no POST. -/
theorem notification_fire_and_forget_witness :
    push cfg0 transportFail "hello" = (Except.ok (), []) :=
  (notification_fire_and_forget cfg0 transportFail "hello").1 (Or.inl rfl)

/-- C8: both registered tools return the mapping recorded → ok and never
raise, for every destination configuration and every transport (succeeding
or failing), both when invoked directly with any argument values and when
invoked through Python keyword-argument binding with any valid keyword
assignment. -/
theorem tools_never_raise (cfg : PushConfig) (transport : TransportFn)
    (email name notes question : String) :
    (record_user_details cfg transport email name notes).1 = Except.ok [("recorded", "ok")] ∧
    (record_unknown_question cfg transport question).1 = Except.ok [("recorded", "ok")] ∧
    (∀ kw : Kwargs,
      kw.all (fun p => p.1 == "email" || p.1 == "name" || p.1 == "notes") = true →
      (kwGet kw "email").isSome = true →
      call_record_user_details cfg transport kw = Except.ok [("recorded", "ok")]) ∧
    (∀ kw : Kwargs,
      kw.all (fun p => p.1 == "question") = true →
      (kwGet kw "question").isSome = true →
      call_record_unknown_question cfg transport kw = Except.ok [("recorded", "ok")]) := by
  refine ⟨?_, ?_, ?_, ?_⟩
  · simp [record_user_details, push_result_ok]
  · simp [record_unknown_question, push_result_ok]
  · intro kw hall hsome
    rcases Option.isSome_iff_exists.mp hsome with ⟨e, he⟩
    simp [call_record_user_details, hall, he, record_user_details, push_result_ok]
  · intro kw hall hsome
    rcases Option.isSome_iff_exists.mp hsome with ⟨q, hq⟩
    simp [call_record_unknown_question, hall, hq, record_unknown_question, push_result_ok]

/-- C8 witness: concrete invocations — a direct call on a failing
transport, and a keyword call with only the required argument on an
unconfigured destination — both return recorded → ok. -/
theorem tools_never_raise_witness :
    (record_user_details cfg1 transportFail "a@b.example" "Ada" "hi").1 =
      Except.ok [("recorded", "ok")] ∧
    call_record_unknown_question cfg0 transportOk [("question", "Policy?")] =
      Except.ok [("recorded", "ok")] := by
  have h := tools_never_raise cfg1 transportFail "a@b.example" "Ada" "hi" "q"
  have h2 := tools_never_raise cfg0 transportOk "e" "n" "s" "q"
  exact ⟨h.1, h2.2.2.2 [("question", "Policy?")] (by decide) (by decide)⟩

/-- C6: constructing the LLM client with a provider name outside the
configured set fails with the configuration ValueError whose detail lists
the valid provider names (openai, gemini); constructing with a configured
name succeeds, producing a client value with no network activity. -/
theorem provider_resolution (env : EnvFn) (provider : String) :
    (provider ≠ "openai" → provider ≠ "gemini" →
      LLMClient_init env provider = Except.error (PyError.valueError
        ("Unsupported provider: " ++ provider ++ ". Available providers: " ++ "openai, gemini"))) ∧
    (provider = "openai" ∨ provider = "gemini" →
      ∃ c : LLMClient, LLMClient_init env provider = Except.ok c) := by
  constructor
  · intro h1 h2
    have hfind : ((LLM_CONFIGS env).find? (fun p => p.1 = provider)) = none := by
      simp [LLM_CONFIGS, List.find?, Ne.symm h1, Ne.symm h2]
    have hi : String.intercalate ", " ((LLM_CONFIGS env).map (fun p => p.1)) = "openai, gemini" := rfl
    simp [LLMClient_init, configLookup, hfind, hi]
  · rintro (rfl | rfl) <;> exact ⟨_, rfl⟩

/-- C6 witness: the name cohere is rejected with the detail listing openai
and gemini; the name openai is accepted. -/
theorem provider_resolution_witness :
    LLMClient_init (fun _ => none) "cohere" = Except.error (PyError.valueError
      "Unsupported provider: cohere. Available providers: openai, gemini") ∧
    ∃ c : LLMClient, LLMClient_init (fun _ => none) "openai" = Except.ok c := by
  have h := provider_resolution (fun _ => none) "cohere"
  have h2 := provider_resolution (fun _ => none) "openai"
  exact ⟨(h.1 (by decide) (by decide)).trans (by decide), h2.2 (Or.inl rfl)⟩

/-- A request for the registered question tool with a decodable flat
argument object. -/
def callQ : ToolCall :=
  { id := "call_q1",
    function := { name := "record_unknown_question",
                  arguments := "\x7b\"question\": \"Policy?\"\x7d" } }

/-- A request naming a tool absent from the registry. -/
def callUnknown : ToolCall :=
  { id := "call_u1",
    function := { name := "no_such_tool", arguments := "\x7b\x7d" } }

/-- A request for a registered tool whose argument text is not JSON. -/
def callBad : ToolCall :=
  { id := "call_b1",
    function := { name := "record_user_details", arguments := "not json" } }

/-- C2: a tool-call request naming a registered tool whose argument text
decodes and whose invocation succeeds contributes exactly one tool-result
message, placed before the results of the remaining requests, with role
tool, tool_call_id echoing the request's id, and content the tool's
structured output re-encoded by `json_dumps`. -/
theorem tool_round_trip (loads : LoadsFn) (reg : Registry) (call : ToolCall)
    (rest : List ToolCall) (tool : ToolFn) (kw : Kwargs)
    (output : List (String × String))
    (hreg : reg call.function.name = some tool)
    (hload : loads call.function.arguments = Except.ok kw)
    (htool : tool kw = Except.ok output) :
    handle_tool_calls loads reg (call :: rest) =
      (handle_tool_calls loads reg rest).map
        (fun results =>
          ({ role := "tool", content := some (json_dumps output),
             tool_call_id := some call.id } : Msg) :: results) := by
  cases h : handle_tool_calls loads reg rest with
  | error e => simp [handle_tool_calls, hreg, hload, htool, h, Except.map]
  | ok results => simp [handle_tool_calls, hreg, hload, htool, h, Except.map]

/-- C2 witness: the concrete question request round-trips to one tool
message carrying its id and the dumped recorded → ok mapping. -/
theorem tool_round_trip_witness :
    handle_tool_calls loadsModel REG0 [callQ] =
      Except.ok [({ role := "tool", content := some "\x7b\"recorded\": \"ok\"\x7d",
                    tool_call_id := some "call_q1" } : Msg)] := by
  have h := tool_round_trip loadsModel REG0 callQ []
    (call_record_unknown_question cfg0 transportOk) [("question", "Policy?")]
    [("recorded", "ok")] rfl rfl rfl
  exact h.trans (by decide)

/-- C3: a request naming an unregistered tool is dropped: handling a call
list containing it equals handling the list with it removed — zero result
messages for it, no exception, and the other requests' results unchanged. -/
theorem unknown_tool_dropped (loads : LoadsFn) (reg : Registry)
    (pre post : List ToolCall) (c : ToolCall)
    (hreg : reg c.function.name = none) :
    handle_tool_calls loads reg (pre ++ c :: post) =
      handle_tool_calls loads reg (pre ++ post) := by
  induction pre with
  | nil => simp [handle_tool_calls, hreg]
  | cons p pre ih =>
    simp only [List.cons_append]
    cases hp : reg p.function.name with
    | none => simpa [handle_tool_calls, hp] using ih
    | some tool =>
      cases hl : loads p.function.arguments with
      | error e => simp [handle_tool_calls, hp, hl]
      | ok args =>
        cases ht : tool args with
        | error e => simp [handle_tool_calls, hp, hl, ht]
        | ok output => simp [handle_tool_calls, hp, hl, ht, ih]

/-- C3 witness: dropping the concrete unknown request in front of the
question request leaves exactly the question request's handling. -/
theorem unknown_tool_dropped_witness :
    handle_tool_calls loadsModel REG0 [callUnknown, callQ] =
      handle_tool_calls loadsModel REG0 [callQ] :=
  unknown_tool_dropped loadsModel REG0 [] [callQ] callUnknown rfl

/-- C4: when the first completion's finish reason is not tool_calls, chat
returns that choice's content as-is (even when None), performs exactly one
completion call, executes no tool round (hence no registry lookup), and
leaves the buffer at its seed. -/
theorem single_resolution (model : ModelFn) (loads : LoadsFn) (reg : Registry)
    (sys : String) (hist : List Msg) (msg : String)
    (hfin : (model (seedMessages sys hist msg)).finish_reason ≠ "tool_calls") :
    chat model loads reg sys hist msg =
      { result := Except.ok (model (seedMessages sys hist msg)).message.content,
        calls := 1, rounds := [],
        state := { history := hist, messages := seedMessages sys hist msg } } := by
  simp [chat, chatAux, hfin]

/-- A choice finishing with stop and an absent (None) content. -/
def choiceStopNone : Choice :=
  { finish_reason := "stop", message := { content := none, tool_calls := [] } }

/-- A model that always finishes with stop and content None. -/
def modelStopNone : ModelFn := fun _ => choiceStopNone

/-- C4 witness: a model finishing with stop and content None has that
absent content surfaced unchanged after one completion call. -/
theorem single_resolution_witness :
    chat modelStopNone loadsModel REG0 "sys" [] "hi" =
      { result := Except.ok none, calls := 1, rounds := [],
        state := { history := [], messages := seedMessages "sys" [] "hi" } } := by
  have h := single_resolution modelStopNone loadsModel REG0 "sys" [] "hi" (by decide)
  exact h

/-- The final history list equals the initial one at every fuel: no branch
of the loop writes the history object. -/
theorem chatAux_history (model : ModelFn) (loads : LoadsFn) (reg : Registry) :
    ∀ (f : Nat) (s : BufState),
      (chatAux model loads reg f s).state.history = s.history := by
  intro f
  induction f with
  | zero => intro s; rfl
  | succ n ih =>
    intro s
    by_cases h : (model s.messages).finish_reason = "tool_calls"
    · cases hh : handle_tool_calls loads reg (model s.messages).message.tool_calls with
      | error e => simp [chatAux, h, hh]
      | ok results => simp [chatAux, h, hh, ih]
    · simp [chatAux, h]

/-- C9: chat never mutates the caller's history argument — the seed is a
fresh list, every append goes to it, and the history object is
element-for-element unchanged whether the turn returns or fails. -/
theorem history_not_mutated (model : ModelFn) (loads : LoadsFn) (reg : Registry)
    (sys : String) (hist : List Msg) (msg : String) :
    (chat model loads reg sys hist msg).state.history = hist :=
  chatAux_history model loads reg 5
    { history := hist, messages := seedMessages sys hist msg }

/-- C10: when the first completion requests a tool call whose name is
registered but whose argument text fails to decode, or whose decoded
arguments the tool rejects, the exception propagates out of chat: the
turn's result is that raised error, no tool-result message is appended
(only the assistant message reached the buffer), and no round completes. -/
theorem invalid_args_propagate (model : ModelFn) (loads : LoadsFn) (reg : Registry)
    (sys : String) (hist : List Msg) (msg : String)
    (tool : ToolFn) (c : ToolCall) (rest : List ToolCall) (e : PyError)
    (hfin : (model (seedMessages sys hist msg)).finish_reason = "tool_calls")
    (hcalls : (model (seedMessages sys hist msg)).message.tool_calls = c :: rest)
    (hreg : reg c.function.name = some tool)
    (herr : loads c.function.arguments = Except.error e ∨
            ∃ kw, loads c.function.arguments = Except.ok kw ∧ tool kw = Except.error e) :
    (chat model loads reg sys hist msg).result = Except.error e ∧
    (chat model loads reg sys hist msg).rounds = [] ∧
    (chat model loads reg sys hist msg).state.messages =
      seedMessages sys hist msg ++
        [assistantToMsg (model (seedMessages sys hist msg)).message] := by
  have hh : handle_tool_calls loads reg
      ((model (seedMessages sys hist msg)).message.tool_calls) = Except.error e := by
    rw [hcalls]
    rcases herr with h | ⟨kw, h1, h2⟩
    · simp [handle_tool_calls, hreg, h]
    · simp [handle_tool_calls, hreg, h1, h2]
  refine ⟨?_, ?_, ?_⟩ <;> simp [chat, chatAux, hfin, hh, assistantToMsg]

/-- A choice requesting the registered contact tool with non-JSON
argument text. -/
def choiceBad : Choice :=
  { finish_reason := "tool_calls", message := { content := none, tool_calls := [callBad] } }

/-- A model that always requests the contact tool with non-JSON arguments. -/
def modelBad : ModelFn := fun _ => choiceBad

/-- C10 witness: the concrete non-JSON request for the registered contact
tool fails the whole turn with the JSONDecodeError. -/
theorem invalid_args_propagate_witness :
    (chat modelBad loadsModel REG0 "sys" [] "hi").result =
      Except.error (PyError.jsonDecodeError "Expecting value: line 1 column 1") := by
  have h := invalid_args_propagate modelBad loadsModel REG0 "sys" [] "hi"
    (call_record_user_details cfg0 transportOk) callBad []
    (PyError.jsonDecodeError "Expecting value: line 1 column 1")
    rfl rfl rfl (Or.inl (by decide))
  exact h.1

/-- At most as many completion calls are performed as the loop has
iterations left, for every model, decoder and registry. -/
theorem chatAux_calls_le (model : ModelFn) (loads : LoadsFn) (reg : Registry) :
    ∀ (f : Nat) (s : BufState), (chatAux model loads reg f s).calls ≤ f := by
  intro f
  induction f with
  | zero => intro s; exact Nat.le_refl 0
  | succ n ih =>
    intro s
    by_cases h : (model s.messages).finish_reason = "tool_calls"
    · cases hh : handle_tool_calls loads reg (model s.messages).message.tool_calls with
      | error e => simp [chatAux, h, hh]
      | ok results =>
        simp only [chatAux, h, if_pos, hh]
        exact Nat.succ_le_succ (ih _)
    · simp [chatAux, h]

/-- Under a model that always requests tool calls, no fuel level lets the
loop return a text answer. -/
theorem chatAux_never_ok (model : ModelFn) (loads : LoadsFn) (reg : Registry)
    (hfin : ∀ ms, (model ms).finish_reason = "tool_calls") :
    ∀ (f : Nat) (s : BufState) (t : Option String),
      (chatAux model loads reg f s).result ≠ Except.ok t := by
  intro f
  induction f with
  | zero => intro s t; simp [chatAux]
  | succ n ih =>
    intro s t
    cases hh : handle_tool_calls loads reg (model s.messages).message.tool_calls with
    | error e => simp [chatAux, hfin s.messages, hh]
    | ok results => simpa [chatAux, hfin s.messages, hh] using ih _ t

/-- Under a model that always requests tool calls whose handling always
succeeds, the loop consumes all its fuel and raises the exhaustion
RuntimeError. -/
theorem chatAux_exhausts (model : ModelFn) (loads : LoadsFn) (reg : Registry)
    (hfin : ∀ ms, (model ms).finish_reason = "tool_calls")
    (hok : ∀ ms, ∃ rs,
      handle_tool_calls loads reg (model ms).message.tool_calls = Except.ok rs) :
    ∀ (f : Nat) (s : BufState),
      (chatAux model loads reg f s).result =
        Except.error (PyError.runtimeError "Tool loop exceeded max iterations") ∧
      (chatAux model loads reg f s).calls = f := by
  intro f
  induction f with
  | zero => intro s; exact ⟨rfl, rfl⟩
  | succ n ih =>
    intro s
    rcases hok s.messages with ⟨rs, hh⟩
    constructor
    · simpa [chatAux, hfin s.messages, hh] using (ih _).1
    · simpa [chatAux, hfin s.messages, hh] using (ih _).2

/-- C1 (amended): for every model that answers each completion request
with finish reason tool_calls, chat performs at most 5 completion calls
(never a 6th) and never returns an answer, partial or otherwise; when in
addition every round's tool-call handling completes without raising, the
turn fails precisely with the exhaustion RuntimeError after exactly 5
completion calls. -/
theorem bounded_termination (model : ModelFn) (loads : LoadsFn) (reg : Registry)
    (sys : String) (hist : List Msg) (msg : String)
    (hfin : ∀ ms, (model ms).finish_reason = "tool_calls") :
    (chat model loads reg sys hist msg).calls ≤ 5 ∧
    (∀ t : Option String, (chat model loads reg sys hist msg).result ≠ Except.ok t) ∧
    ((∀ ms, ∃ rs,
        handle_tool_calls loads reg (model ms).message.tool_calls = Except.ok rs) →
      (chat model loads reg sys hist msg).result =
        Except.error (PyError.runtimeError "Tool loop exceeded max iterations") ∧
      (chat model loads reg sys hist msg).calls = 5) := by
  refine ⟨chatAux_calls_le model loads reg 5 _,
          fun t => chatAux_never_ok model loads reg hfin 5 _ t,
          fun hok => chatAux_exhausts model loads reg hfin hok 5 _⟩

/-- A request for the registered question tool with an empty argument
object, missing the required keyword. -/
def callEmptyArgs : ToolCall :=
  { id := "call_e1",
    function := { name := "record_unknown_question", arguments := "\x7b\x7d" } }

/-- A choice requesting the question tool with empty arguments. -/
def choiceExc : Choice :=
  { finish_reason := "tool_calls",
    message := { content := none, tool_calls := [callEmptyArgs] } }

/-- A model that always requests the question tool with empty arguments. -/
def modelExc : ModelFn := fun _ => choiceExc

/-- C1 counterexample: a model that answers every completion request with
finish reason tool_calls, yet the turn fails after one completion call
with the TypeError of the bad keyword assignment — not with the
exhaustion RuntimeError the claim promises. -/
theorem bounded_termination_counterexample :
    choiceExc.finish_reason = "tool_calls" ∧
    (chat modelExc loadsModel REG0 "sys" [] "hi").calls = 1 ∧
    (chat modelExc loadsModel REG0 "sys" [] "hi").result =
      Except.error (PyError.typeError
        "record_unknown_question missing required argument: question") ∧
    (chat modelExc loadsModel REG0 "sys" [] "hi").result ≠
      Except.error (PyError.runtimeError "Tool loop exceeded max iterations") := by
  refine ⟨rfl, ?_, ?_, ?_⟩ <;> decide

/-- A choice requesting only a tool absent from the registry. -/
def choiceUnknown : Choice :=
  { finish_reason := "tool_calls",
    message := { content := none, tool_calls := [callUnknown] } }

/-- A model that always requests only the unregistered tool. -/
def modelUnknown : ModelFn := fun _ => choiceUnknown

/-- C1 witness: a model forever requesting an unregistered tool (whose
handling never raises) exhausts the loop after exactly 5 completion
calls with the exhaustion RuntimeError. -/
theorem bounded_termination_witness :
    (chat modelUnknown loadsModel REG0 "sys" [] "hi").calls ≤ 5 ∧
    (chat modelUnknown loadsModel REG0 "sys" [] "hi").result =
      Except.error (PyError.runtimeError "Tool loop exceeded max iterations") ∧
    (chat modelUnknown loadsModel REG0 "sys" [] "hi").calls = 5 := by
  have h := bounded_termination modelUnknown loadsModel REG0 "sys" [] "hi" (fun _ => rfl)
  exact ⟨h.1, h.2.2 (fun ms => ⟨[], rfl⟩)⟩

/-- The block a completed tool-call round contributes to the buffer: the
assistant message carrying the requests, immediately followed by its
tool-result messages. -/
def roundBlock (r : Round) : List Msg := assistantToMsg r.assistant :: r.results

/-- Shape of a successful `_handle_tool_calls` run: the result messages'
identifiers echo, in emission order, exactly the ids of the requests whose
names are registered, and every result message has role tool. -/
theorem handle_ok_shape (loads : LoadsFn) (reg : Registry) :
    ∀ (calls : List ToolCall) (results : List Msg),
      handle_tool_calls loads reg calls = Except.ok results →
      results.map (fun m => m.tool_call_id) =
        (calls.filter (fun c => (reg c.function.name).isSome)).map
          (fun c => some c.id) ∧
      ∀ m ∈ results, m.role = "tool" := by
  intro calls
  induction calls with
  | nil =>
    intro results h
    have h0 : results = [] := by simpa [handle_tool_calls] using h.symm
    subst h0
    simp
  | cons c rest ih =>
    intro results h
    cases hr : reg c.function.name with
    | none =>
      have h2 : handle_tool_calls loads reg rest = Except.ok results := by
        simpa [handle_tool_calls, hr] using h
      simpa [List.filter_cons, hr] using ih results h2
    | some tool =>
      cases hl : loads c.function.arguments with
      | error e => simp [handle_tool_calls, hr, hl] at h
      | ok args =>
        cases ht : tool args with
        | error e => simp [handle_tool_calls, hr, hl, ht] at h
        | ok output =>
          cases hrest : handle_tool_calls loads reg rest with
          | error e => simp [handle_tool_calls, hr, hl, ht, hrest] at h
          | ok rs =>
            have h0 : ({ role := "tool", content := some (json_dumps output),
                         tool_call_id := some c.id } : Msg) :: rs = results := by
              have h1 := h
              simp only [handle_tool_calls, hr, hl, ht, hrest] at h1
              exact (Except.ok.injEq _ _).mp h1
            subst h0
            rcases ih rs hrest with ⟨hids, hroles⟩
            constructor
            · simp [List.filter_cons, hr, hids]
            · intro m hm
              rcases List.mem_cons.mp hm with h1 | h1
              · rw [h1]
              · exact hroles m h1

/-- Decomposition of the loop's effect on the buffer at every fuel level:
every recorded round's results come from handling that round's assistant
requests, and the final buffer is the initial one followed by the rounds'
blocks in order — possibly with one trailing assistant message whose
handling raised. -/
theorem chatAux_decomp (model : ModelFn) (loads : LoadsFn) (reg : Registry) :
    ∀ (f : Nat) (s : BufState),
      (∀ r ∈ (chatAux model loads reg f s).rounds,
        handle_tool_calls loads reg r.assistant.tool_calls = Except.ok r.results) ∧
      ((chatAux model loads reg f s).state.messages =
         s.messages ++ ((chatAux model loads reg f s).rounds.map roundBlock).flatten ∨
       ∃ am, (chatAux model loads reg f s).state.messages =
         s.messages ++ ((chatAux model loads reg f s).rounds.map roundBlock).flatten
           ++ [assistantToMsg am]) := by
  intro f
  induction f with
  | zero => intro s; exact ⟨by simp [chatAux], Or.inl (by simp [chatAux])⟩
  | succ n ih =>
    intro s
    by_cases h : (model s.messages).finish_reason = "tool_calls"
    · cases hh : handle_tool_calls loads reg (model s.messages).message.tool_calls with
      | error e =>
        refine ⟨by simp [chatAux, h, hh], Or.inr ⟨(model s.messages).message, ?_⟩⟩
        simp [chatAux, h, hh]
      | ok results =>
        rcases ih (BufState.mk s.history
            ((s.messages ++ [assistantToMsg (model s.messages).message]) ++ results))
          with ⟨ihr, ihm⟩
        constructor
        · intro r hr
          have hmem : r = (⟨(model s.messages).message, results⟩ : Round) ∨
              r ∈ (chatAux model loads reg n (BufState.mk s.history
                ((s.messages ++ [assistantToMsg (model s.messages).message])
                  ++ results))).rounds := by
            simpa [chatAux, h, hh] using hr
          rcases hmem with h1 | h1
          · rw [h1]; exact hh
          · exact ihr r h1
        · rcases ihm with h1 | ⟨am, h1⟩
          · refine Or.inl ?_
            simpa [chatAux, h, hh, roundBlock, List.append_assoc] using h1
          · refine Or.inr ⟨am, ?_⟩
            simpa [chatAux, h, hh, roundBlock, List.append_assoc] using h1
    · exact ⟨by simp [chatAux, h], Or.inl (by simp [chatAux, h])⟩

/-- C5: the buffer is seeded [system message, ...history, user message] in
that order and only ever extended; what follows the seed is exactly the
executed rounds' blocks in order (possibly one trailing assistant message
whose handling raised), each block an assistant message immediately
followed by its tool results; and each round's results are those of
handling that assistant message's requests — role tool, identifiers
echoing the registered requests' ids in the order the model emitted them,
never fabricated or reordered. -/
theorem conversation_buffer_invariant (model : ModelFn) (loads : LoadsFn)
    (reg : Registry) (sys : String) (hist : List Msg) (msg : String) :
    (∃ tail : List Msg,
      (chat model loads reg sys hist msg).state.messages =
        ({ role := "system", content := some sys } : Msg) ::
          (hist ++ [({ role := "user", content := some msg } : Msg)]) ++ tail) ∧
    ((chat model loads reg sys hist msg).state.messages =
        seedMessages sys hist msg ++
          ((chat model loads reg sys hist msg).rounds.map roundBlock).flatten ∨
      ∃ am, (chat model loads reg sys hist msg).state.messages =
        seedMessages sys hist msg ++
          ((chat model loads reg sys hist msg).rounds.map roundBlock).flatten
          ++ [assistantToMsg am]) ∧
    ∀ r ∈ (chat model loads reg sys hist msg).rounds,
      handle_tool_calls loads reg r.assistant.tool_calls = Except.ok r.results ∧
      r.results.map (fun m => m.tool_call_id) =
        (r.assistant.tool_calls.filter (fun c => (reg c.function.name).isSome)).map
          (fun c => some c.id) ∧
      ∀ m ∈ r.results, m.role = "tool" := by
  have hd := chatAux_decomp model loads reg 5
    (BufState.mk hist (seedMessages sys hist msg))
  have hchat : chat model loads reg sys hist msg =
      chatAux model loads reg 5 (BufState.mk hist (seedMessages sys hist msg)) := rfl
  refine ⟨?_, ?_, ?_⟩
  · rcases hd.2 with h1 | ⟨am, h1⟩
    · refine ⟨((chatAux model loads reg 5
        (BufState.mk hist (seedMessages sys hist msg))).rounds.map roundBlock).flatten, ?_⟩
      rw [hchat, h1]
      simp [seedMessages]
    · refine ⟨((chatAux model loads reg 5
        (BufState.mk hist (seedMessages sys hist msg))).rounds.map roundBlock).flatten
          ++ [assistantToMsg am], ?_⟩
      rw [hchat, h1]
      simp [seedMessages]
  · rw [hchat]
    exact hd.2
  · intro r hr
    rw [hchat] at hr
    have h1 := hd.1 r hr
    rcases handle_ok_shape loads reg r.assistant.tool_calls r.results h1 with ⟨h2, h3⟩
    exact ⟨h1, h2, h3⟩

/-- A choice requesting the question tool (decodable arguments) and an
unregistered tool in one response. -/
def choiceTwoCalls : Choice :=
  { finish_reason := "tool_calls",
    message := { content := some "calling", tool_calls := [callQ, callUnknown] } }

/-- A choice finishing the turn with a plain answer. -/
def choiceDone : Choice :=
  { finish_reason := "stop", message := { content := some "done", tool_calls := [] } }

/-- A model that requests the two tool calls on the seeded two-message
buffer and finishes with a plain answer on any longer buffer. -/
def modelOneRound : ModelFn := fun ms =>
  if ms.length == 2 then choiceTwoCalls else choiceDone

/-- The one round that concrete run executes: the two requests, answered
by a single result message for the registered one. -/
def roundW : Round :=
  { assistant := choiceTwoCalls.message,
    results := [({ role := "tool", content := some "\x7b\"recorded\": \"ok\"\x7d",
                   tool_call_id := some "call_q1" } : Msg)] }

/-- C5 witness: in the concrete one-round run, the recorded round's
results are the handling of its assistant requests, and their identifiers
echo exactly the registered request's id. -/
theorem conversation_buffer_invariant_witness :
    handle_tool_calls loadsModel REG0 roundW.assistant.tool_calls =
      Except.ok roundW.results ∧
    roundW.results.map (fun m => m.tool_call_id) =
      (roundW.assistant.tool_calls.filter
        (fun c => (REG0 c.function.name).isSome)).map (fun c => some c.id) := by
  have h := (conversation_buffer_invariant modelOneRound loadsModel REG0
    "sys" [] "hi").2.2 roundW (by decide)
  exact ⟨h.1, h.2.1⟩

end CareerBot
